/-
Verification of the robi trading application's position-lifecycle and
risk-management engine (src/proba.py) against its specification.

Prices and monetary amounts are Python floats in the source; they are
embedded as rationals (ℚ). Share quantities are SQLite INTEGERs, embedded
as ℤ. Timestamps are embedded as an abstract ℕ tick passed in by the
caller (the source reads datetime.now()).
-/
import Mathlib

namespace Robi

/-- Trade direction, stored as the TEXT column trade_type ('Long'/'Short'). -/
inductive TradeType
  | Long
  | Short
deriving DecidableEq

/-- Lifecycle status, stored as the TEXT column status ('Open'/'Closed'). -/
inductive Status
  | Open
  | Closed
deriving DecidableEq

/-- A row of the portfolio table (DatabaseManager.setup_database). The id
column is not modeled: operations are given the row they act on directly. -/
structure Position where
  symbol : String
  entry_price : ℚ
  exit_price : Option ℚ
  stop_loss : Option ℚ
  take_profit : Option ℚ
  quantity : ℤ
  entry_date : ℕ
  exit_date : Option ℕ
  pnl : Option ℚ
  trade_type : TradeType
  status : Status
  original_quantity : Option ℤ
deriving DecidableEq

/-- Python's int() applied to a float: truncation toward zero. -/
def pyInt (q : ℚ) : ℤ :=
  if 0 ≤ q then ⌊q⌋ else -⌊-q⌋

/-- RiskManagement.calculate_position_size (src/proba.py lines 245-255):
risk_amount = account_balance * max_risk_per_trade, risk_per_share =
abs(entry_price - stop_loss); returns 0 on zero risk_per_share, otherwise
int(risk_amount / risk_per_share). The try/except never fires: every
operation on the zero-guarded path is total. -/
def calculate_position_size (account_balance max_risk_per_trade entry_price stop_loss : ℚ) : ℤ :=
  let risk_amount := account_balance * max_risk_per_trade
  let risk_per_share := |entry_price - stop_loss|
  if risk_per_share = 0 then 0
  else pyInt (risk_amount / risk_per_share)

/-- Outcome of RiskManagement.validate_trade. The source returns a pair
(bool, message); the three distinct False messages are the three rejection
constructors: rejectedRatio = "Risk/Reward ratio should be at least 1:2",
rejectedBudget = "Risk exceeds maximum allowed risk of $...", and
rejectedError = "Error validating trade: ..." (the except-handler path). -/
inductive ValidationResult
  | admitted
  | rejectedRatio
  | rejectedBudget
  | rejectedError
deriving DecidableEq

/-- RiskManagement.validate_trade (src/proba.py lines 277-297). risk =
abs(entry - stop), reward = abs(take_profit - entry). When risk = 0 the
expression reward / risk raises ZeroDivisionError in Python (float
division by zero raises); the surrounding except-handler catches it and
returns (False, "Error validating trade: ..."), modeled by the explicit
risk = 0 branch (in ℚ, x / 0 = 0 would otherwise misrepresent the source).
Otherwise: ratio below 2 rejects with the ratio message, then per-share
risk above account_balance * max_risk_per_trade rejects with the budget
message, else the trade is admitted. The function takes no quantity: the
budget check compares the per-share risk against the dollar budget. -/
def validate_trade (account_balance max_risk_per_trade entry_price stop_loss take_profit : ℚ) :
    ValidationResult :=
  let risk := |entry_price - stop_loss|
  let reward := |take_profit - entry_price|
  if risk = 0 then ValidationResult.rejectedError
  else if reward / risk < 2 then ValidationResult.rejectedRatio
  else if account_balance * max_risk_per_trade < risk then ValidationResult.rejectedBudget
  else ValidationResult.admitted

/-- The row inserted by PositionCalculator.save_trade (src/proba.py lines
903-955): symbol, entry_price, stop_loss, take_profit, quantity,
entry_date, trade_type and status = 'Open' are set; the remaining columns
are left NULL. -/
def mkOpenPosition (symbol : String) (entry_price : ℚ) (stop_loss take_profit : Option ℚ)
    (quantity : ℤ) (entry_date : ℕ) (trade_type : TradeType) : Position :=
  { symbol := symbol
    entry_price := entry_price
    exit_price := none
    stop_loss := stop_loss
    take_profit := take_profit
    quantity := quantity
    entry_date := entry_date
    exit_date := none
    pnl := none
    trade_type := trade_type
    status := Status.Open
    original_quantity := none }

/-- PositionCalculator.save_trade (src/proba.py lines 903-955): re-reads
the form fields, raises ValueError (caught; nothing inserted) when the
symbol is empty or any of entry/stop/take is non-positive (Python: `if not
symbol or entry_price <= 0 or stop_loss <= 0 or take_profit <= 0`), and
otherwise inserts a fresh Open row. -/
def save_trade (symbol : String) (entry_price stop_loss take_profit : ℚ) (position_size : ℤ)
    (now : ℕ) (trade_type : TradeType) : Option Position :=
  if symbol = "" ∨ entry_price ≤ 0 ∨ stop_loss ≤ 0 ∨ take_profit ≤ 0 then none
  else some (mkOpenPosition symbol entry_price (some stop_loss) (some take_profit)
    position_size now trade_type)

/-- The dict built by RiskManagement.calculate_risk_metrics. -/
structure RiskMetrics where
  risk_per_share : ℚ
  reward_per_share : ℚ
  total_risk : ℚ
  total_reward : ℚ
  risk_reward_ratio : ℚ
  risk_percentage : ℚ
deriving DecidableEq

/-- RiskManagement.calculate_risk_metrics (src/proba.py lines 257-275).
risk_reward_ratio is guarded by its own ternary (`if risk_per_share > 0
else 0`), but risk_percentage = (total_risk / account_balance) * 100
divides by the balance unguarded: with account_balance = 0 the float
division raises ZeroDivisionError, the except-handler logs and returns
None — the only failing path, modeled by the account_balance = 0 branch
(in ℚ, x / 0 = 0 would otherwise misrepresent the source). -/
def calculate_risk_metrics (account_balance : ℚ) (position_size : ℤ)
    (entry_price stop_loss take_profit : ℚ) : Option RiskMetrics :=
  if account_balance = 0 then none
  else
    let risk_per_share := |entry_price - stop_loss|
    let reward_per_share := |take_profit - entry_price|
    let total_risk := risk_per_share * (position_size : ℚ)
    let total_reward := reward_per_share * (position_size : ℚ)
    some
      { risk_per_share := risk_per_share
        reward_per_share := reward_per_share
        total_risk := total_risk
        total_reward := total_reward
        risk_reward_ratio := if 0 < risk_per_share then reward_per_share / risk_per_share else 0
        risk_percentage := total_risk / account_balance * 100 }

/-- PositionCalculator.calculate_position followed by save_trade
(src/proba.py lines 867-955), with the user answering yes to the "Would
you like to save this trade?" prompt. calculate_position raises ValueError
(caught; nothing saved) when any of entry/stop/take is non-positive;
otherwise it computes the position size and risk_metrics and proceeds
under `if risk_metrics:` — a None result (balance 0) falls through with
nothing saved, while the always non-empty dict is truthy, after which a
non-blocking warning is shown when risk_reward_ratio < 1 and save_trade
runs. RiskManagement.validate_trade is never invoked on this path. -/
def calculate_position_and_save (account_balance max_risk_per_trade : ℚ) (symbol : String)
    (entry_price stop_loss take_profit : ℚ) (now : ℕ) (trade_type : TradeType) :
    Option Position :=
  if entry_price ≤ 0 ∨ stop_loss ≤ 0 ∨ take_profit ≤ 0 then none
  else
    let position_size :=
      calculate_position_size account_balance max_risk_per_trade entry_price stop_loss
    match calculate_risk_metrics account_balance position_size entry_price stop_loss
        take_profit with
    | none => none
    | some _ => save_trade symbol entry_price stop_loss take_profit position_size now trade_type

/-- PortfolioTracker.execute_close_position (src/proba.py lines 451-483):
UPDATE portfolio SET exit_price, exit_date = now, pnl, status = 'Closed'.
The source computes pnl = (exit_price - entry_price) * quantity without
consulting trade_type. quantity and original_quantity are untouched. -/
def executeClosePosition (now : ℕ) (p : Position) (exit_price : ℚ) : Position :=
  { p with
    exit_price := some exit_price
    exit_date := some now
    pnl := some ((exit_price - p.entry_price) * (p.quantity : ℚ))
    status := Status.Closed }

/-- PortfolioTracker.execute_partial_close (src/proba.py lines 485-537),
acting on the live record p and the list of Closed lots already derived
from it. remaining_quantity = quantity - close_quantity; the closed part's
pnl branches on trade_type. If remaining_quantity > 0 the live record's
quantity is reduced and original_quantity is set to
COALESCE(original_quantity, quantity) (SQL SET expressions read the old
row, so the pre-reduction quantity backfills on the first reduction only),
and a new Closed row is inserted with quantity = original_quantity =
close_quantity and the entry fields copied; otherwise the source calls
execute_close_position on the record and inserts nothing. -/
def executePartialClose (now : ℕ) (p : Position) (lots : List Position)
    (close_quantity : ℤ) (exit_price : ℚ) : Position × List Position :=
  let remaining_quantity := p.quantity - close_quantity
  let pnl := if p.trade_type = TradeType.Long
    then (exit_price - p.entry_price) * (close_quantity : ℚ)
    else (p.entry_price - exit_price) * (close_quantity : ℚ)
  if 0 < remaining_quantity then
    ({ p with
        quantity := remaining_quantity
        original_quantity := some (p.original_quantity.getD p.quantity) },
     lots ++ [{ symbol := p.symbol
                entry_price := p.entry_price
                exit_price := some exit_price
                stop_loss := p.stop_loss
                take_profit := p.take_profit
                quantity := close_quantity
                entry_date := p.entry_date
                exit_date := some now
                pnl := some pnl
                trade_type := p.trade_type
                status := Status.Closed
                original_quantity := some close_quantity }])
  else
    (executeClosePosition now p exit_price, lots)

/-- One step of a sequence of partial closes: the state is the live record
together with the Closed lots derived from it so far. -/
def closeStep (now : ℕ) (s : Position × List Position) (op : ℤ × ℚ) : Position × List Position :=
  executePartialClose now s.1 s.2 op.1 op.2

/-- Apply a sequence of partial-close operations (close_quantity,
exit_price) in order. -/
def applyCloses (now : ℕ) : Position × List Position → List (ℤ × ℚ) → Position × List Position
  | s, [] => s
  | s, op :: rest => applyCloses now (closeStep now s op) rest

/-- A sequence of partial-close operations is valid when each step closes
a quantity in (0, current quantity] of a record that is still Open — the
bounds enforced by PartialCloseDialog.validate_and_close and the Open
filter of PortfolioTracker.load_positions. -/
def validSeq (now : ℕ) : Position × List Position → List (ℤ × ℚ) → Bool
  | _, [] => true
  | s, op :: rest =>
    decide (0 < op.1) && decide (op.1 ≤ s.1.quantity) && decide (s.1.status = Status.Open) &&
      validSeq now (closeStep now s op) rest

/-- Quantity-conservation invariant for a position opened with quantity
q0: the live record's quantity plus the quantities of all derived Closed
lots equals q0; original_quantity is either still NULL (in which case the
quantity is unreduced) or frozen at q0; and original_quantity is NULL
exactly until the first lot split. -/
def ConservInv (q0 : ℤ) (s : Position × List Position) : Prop :=
  s.1.quantity + (s.2.map Position.quantity).sum = q0 ∧
  ((s.1.original_quantity = none ∧ s.1.quantity = q0) ∨ s.1.original_quantity = some q0) ∧
  (s.1.original_quantity = none ↔ s.2 = [])

/-- One daily OHLC bar as consumed by MarketDataManager.calculate_atr
(only High, Low and Close are read). -/
structure Bar where
  high : ℚ
  low : ℚ
  close : ℚ
deriving DecidableEq

/-- True Range of each bar after the first: max(high - low,
abs(high - prevClose), abs(low - prevClose)). -/
def trueRangesAux (prevClose : ℚ) : List Bar → List ℚ
  | [] => []
  | b :: rest =>
    max (b.high - b.low) (max |b.high - prevClose| |b.low - prevClose|) :: trueRangesAux b.close rest

/-- The TR column of MarketDataManager.calculate_atr: for the first bar
H-PC and L-PC are NaN (Close.shift(1) has no predecessor) and pandas'
max(axis=1) skips NaN, leaving high - low; later bars use the full max. -/
def trueRanges : List Bar → List ℚ
  | [] => []
  | b :: rest => (b.high - b.low) :: trueRangesAux b.close rest

/-- What MarketDataManager.calculate_atr can hand back: None for an empty
history, the float NaN when the rolling window is not yet full, or a real
ATR value. -/
inductive ATRResult
  | unavailable
  | nan
  | val (a : ℚ)
deriving DecidableEq

/-- MarketDataManager.calculate_atr (src/proba.py lines 221-238): returns
None when the fetched history is empty; otherwise takes
TR.rolling(window=period).mean().iloc[-1]. pandas' rolling mean with its
default min_periods leaves NaN whenever fewer than period rows exist, so
a non-empty history shorter than the window yields NaN — not None; with at
least period rows the last entry is the mean of the last period TRs. -/
def calculate_atr (bars : List Bar) (period : ℕ) : ATRResult :=
  if bars = [] then ATRResult.unavailable
  else if bars.length < period then ATRResult.nan
  else ATRResult.val (((trueRanges bars).drop (bars.length - period)).sum / (period : ℚ))

/-- Observable outcome of PositionCalculator.calculate_atr_stop_loss:
either the "ATR: Not Available" label, or a stop-loss value written into
the form — nanStop when that value is the float NaN. -/
inductive AtrStopReport
  | notAvailable
  | nanStop
  | stopAt (s : ℚ)
deriving DecidableEq

/-- PositionCalculator.calculate_atr_stop_loss (src/proba.py lines
803-827) in ATR mode: fetches calculate_atr(symbol) with the default
14-bar window and tests `if atr is not None`. Only None reaches the
"ATR: Not Available" branch; NaN passes the test, and entry minus or plus
atr * multiplier then propagates NaN into the stop-loss field. A real
value gives stop = entry - atr * m for Long, entry + atr * m for Short. -/
def calculate_atr_stop_loss (bars : List Bar) (entry_price multiplier : ℚ)
    (trade_type : TradeType) : AtrStopReport :=
  match calculate_atr bars 14 with
  | ATRResult.unavailable => AtrStopReport.notAvailable
  | ATRResult.nan => AtrStopReport.nanStop
  | ATRResult.val a =>
    AtrStopReport.stopAt (if trade_type = TradeType.Long
      then entry_price - a * multiplier
      else entry_price + a * multiplier)

/-- profit_factor is either the float inf produced by float('inf') or a
finite quotient. -/
inductive ProfitFactor
  | inf
  | val (q : ℚ)
deriving DecidableEq

/-- The pnl-derived fields computed by StatisticsTab.calculate_statistics.
avg_rr and avg_hold_time are computed from other columns and are not part
of any claim under verification, so they are not modeled. -/
structure TradingStats where
  total_trades : ℕ
  winning_trades : ℕ
  losing_trades : ℕ
  win_rate : ℚ
  total_pnl : ℚ
  profit_factor : ProfitFactor
  avg_win : ℚ
  avg_loss : ℚ
  largest_win : ℚ
  largest_loss : ℚ
deriving DecidableEq

/-- Python's `max(xs) if xs else 0`. -/
def listMax : List ℚ → ℚ
  | [] => 0
  | h :: t => t.foldl max h

/-- StatisticsTab.calculate_statistics (src/proba.py lines 1161-1240),
restricted to the pnl column of the Closed rows. `if not trades: return`
means nothing is computed for an empty closed set (none). profits = pnls
with pnl > 0, losses = absolute values of pnls with pnl < 0; win_rate uses
the `if total_trades > 0 else 0` ternary of the source; profit_factor =
sum(profits)/sum(losses) when `losses and sum(losses) > 0`, else
float('inf'). -/
def calculate_statistics (pnls : List ℚ) : Option TradingStats :=
  if pnls = [] then none
  else
    let profits := pnls.filter (fun p => decide (0 < p))
    let losses := (pnls.filter (fun p => decide (p < 0))).map (fun l => |l|)
    let total_trades := pnls.length
    let winning_trades := profits.length
    let losing_trades := losses.length
    some
      { total_trades := total_trades
        winning_trades := winning_trades
        losing_trades := losing_trades
        win_rate := if 0 < total_trades then (winning_trades : ℚ) / (total_trades : ℚ) * 100 else 0
        total_pnl := pnls.sum
        profit_factor := if losses ≠ [] ∧ 0 < losses.sum
          then ProfitFactor.val (profits.sum / losses.sum)
          else ProfitFactor.inf
        avg_win := if profits ≠ [] then profits.sum / (profits.length : ℚ) else 0
        avg_loss := if losses ≠ [] then losses.sum / (losses.length : ℚ) else 0
        largest_win := listMax profits
        largest_loss := listMax losses }

/-- A concrete Open Short position: entry 100, quantity 10. -/
def shortExample : Position :=
  mkOpenPosition "XYZ" 100 (some 105) (some 90) 10 0 TradeType.Short

/-- A concrete Open Long position matching spec scenario 1/2: entry 150,
stop 145, take 160, quantity 40. -/
def appleOpen : Position :=
  mkOpenPosition "AAPL" 150 (some 145) (some 160) 40 0 TradeType.Long

/-- A concrete 5-bar price history: non-empty but shorter than the 14-bar
ATR window. -/
def fiveBars : List Bar :=
  [⟨10, 9, 9⟩, ⟨11, 9, 10⟩, ⟨12, 10, 11⟩, ⟨11, 10, 10⟩, ⟨12, 11, 12⟩]

/-- Claim C1, evaluated at the failing input: fullClose
(execute_close_position) on an Open Short position with entry_price 100,
quantity 10 and exit_price 95 writes pnl = (95 - 100) * 10 = -50, although
the claim (and the Short branch used by execute_partial_close and
load_positions elsewhere in the source) requires pnl =
(entry - exit) * quantity = +50: the source omits the trade_type branch. -/
theorem executeClosePosition_short_bug :
    shortExample.trade_type = TradeType.Short ∧
    shortExample.status = Status.Open ∧
    (executeClosePosition 1 shortExample 95).pnl = some (-50) ∧
    (executeClosePosition 1 shortExample 95).pnl ≠
      some ((shortExample.entry_price - 95) * (shortExample.quantity : ℚ)) := by
  refine ⟨rfl, rfl, ?_, ?_⟩ <;>
    norm_num [executeClosePosition, shortExample, mkOpenPosition]

/-- Claim C5: partialClose with close_quantity equal to the full current
quantity yields exactly the state fullClose produces at the same exit
price — the record is updated in place by execute_close_position and no
residual (in particular no zero-quantity) sibling record is inserted. The
equation holds for every record, hence for every Open one. -/
theorem close_full_quantity_eq_full_close (now : ℕ) (p : Position) (lots : List Position)
    (exit_price : ℚ) :
    executePartialClose now p lots p.quantity exit_price =
      (executeClosePosition now p exit_price, lots) := by
  simp [executePartialClose]

/-- Claim C7, evaluated at the failing input: with a non-empty history of
5 bars — fewer than the 14-bar window — the ATR-based stop-loss strategy
does not report "unavailable": calculate_atr returns the float NaN (the
partial rolling window), which passes the `is not None` test of
calculate_atr_stop_loss, and a NaN stop-loss is written instead of the
"ATR: Not Available" report. -/
theorem atr_stop_short_history_bug :
    fiveBars ≠ [] ∧ fiveBars.length < 14 ∧
    calculate_atr_stop_loss fiveBars 100 2 TradeType.Long = AtrStopReport.nanStop ∧
    AtrStopReport.nanStop ≠ AtrStopReport.notAvailable := by
  decide

/-- Claim C8: for every account_balance, max_risk_per_trade, entry and
take_profit, validate_trade with stop_loss equal to entry_price returns a
rejection (the ZeroDivisionError raised by reward / risk is caught by the
handler, which returns False with an error message — modeled as
rejectedError): the configuration is never admitted, no infinite ratio is
produced, and no exception escapes. -/
theorem validate_stop_eq_entry (account_balance max_risk_per_trade entry_price take_profit : ℚ) :
    validate_trade account_balance max_risk_per_trade entry_price entry_price take_profit =
      ValidationResult.rejectedError ∧
    validate_trade account_balance max_risk_per_trade entry_price entry_price take_profit ≠
      ValidationResult.admitted := by
  have h : validate_trade account_balance max_risk_per_trade entry_price entry_price take_profit =
      ValidationResult.rejectedError := by
    simp [validate_trade]
  exact ⟨h, by simp [h]⟩

/-- Claim C2 counterexample: the trade entry=100, stop=90, take_profit=110
(reward:risk ratio 1.0) is rejected by RiskManagement.validate_trade, yet
the calculate_position / save_trade path still creates an Open record — it
never consults the validator. -/
theorem open_position_without_admission :
    validate_trade 10000 (1/50) 100 90 110 ≠ ValidationResult.admitted ∧
    (calculate_position_and_save 10000 (1/50) "AAPL" 100 90 110 0 TradeType.Long).isSome = true := by
  constructor
  · norm_num [validate_trade]
    decide
  · norm_num [calculate_position_and_save, calculate_risk_metrics, save_trade]
    decide

/-- Claim C2 as amended: openPosition (calculate_position followed by
save_trade, with the user confirming) creates a new Open record exactly
when account_balance is non-zero (with balance 0 calculate_risk_metrics
raises ZeroDivisionError in risk_percentage, returns None, and the
`if risk_metrics:` gate skips the save), the symbol is non-empty, and
entry, stop and take_profit are positive; the RiskValidator is never
consulted, so its verdict does not influence record creation. -/
theorem save_requires_only_positive_inputs (account_balance max_risk_per_trade : ℚ)
    (symbol : String) (entry_price stop_loss take_profit : ℚ) (now : ℕ)
    (trade_type : TradeType) :
    (calculate_position_and_save account_balance max_risk_per_trade symbol entry_price stop_loss
        take_profit now trade_type).isSome = true ↔
      (account_balance ≠ 0 ∧ symbol ≠ "" ∧ 0 < entry_price ∧ 0 < stop_loss ∧
        0 < take_profit) := by
  have hmet : ∀ ps : ℤ, calculate_risk_metrics account_balance ps entry_price stop_loss
      take_profit = none ↔ account_balance = 0 := by
    intro ps
    simp only [calculate_risk_metrics]
    split_ifs with hb
    · simp [hb]
    · simp [hb]
  simp only [calculate_position_and_save]
  split_ifs with h1
  · simp only [Option.isSome_none, Bool.false_eq_true, false_iff]
    rintro ⟨_, _, he, hs, ht⟩
    rcases h1 with h | h | h <;> linarith
  · rcases hm : calculate_risk_metrics account_balance
        (calculate_position_size account_balance max_risk_per_trade entry_price stop_loss)
        entry_price stop_loss take_profit with _ | m
    · have hb := (hmet _).mp hm
      simp only [hm, Option.isSome_none, Bool.false_eq_true, false_iff]
      rintro ⟨hb2, -, -, -, -⟩
      exact hb2 hb
    · have hb : account_balance ≠ 0 := by
        intro h0
        rw [(hmet _).mpr h0] at hm
        exact Option.noConfusion hm
      simp only [hm, save_trade]
      split_ifs with h2
      · simp only [Option.isSome_none, Bool.false_eq_true, false_iff]
        rintro ⟨-, hsym, he, hs, ht⟩
        rcases h2 with h | h | h | h
        · exact hsym h
        · linarith
        · linarith
        · linarith
      · simp only [Option.isSome_some, true_iff]
        push_neg at h1 h2
        exact ⟨hb, h2.1, h1.1, h1.2.1, h1.2.2⟩

/-- Claim C2 amended theorem applied at a concrete admissible input: the
scenario-1 trade (entry 150, stop 145, take 160) on a non-zero balance is
saved. -/
theorem save_requires_only_positive_inputs_witness :
    (calculate_position_and_save 10000 (1/50) "AAPL" 150 145 160 0 TradeType.Long).isSome = true :=
  (save_requires_only_positive_inputs 10000 (1/50) "AAPL" 150 145 160 0 TradeType.Long).mpr
    ⟨by norm_num, by simp, by norm_num, by norm_num, by norm_num⟩

/-- Claim C3 counterexample: with account_balance 100 and
max_risk_per_trade 1/50 the budget is 2 and the trade entry=100, stop=90,
take=110 has per-share risk 10 exceeding it, yet validate_trade rejects
with the ratio reason (the ratio check runs first), not the budget reason
— so "rejects with the budget reason exactly when the risk exceeds the
budget" fails in the only-if direction. -/
theorem budget_reason_counterexample :
    (100 * (1/50 : ℚ) < |(100 : ℚ) - 90|) ∧
    validate_trade 100 (1/50) 100 90 110 = ValidationResult.rejectedRatio ∧
    ValidationResult.rejectedRatio ≠ ValidationResult.rejectedBudget :=
  ⟨by norm_num, by norm_num [validate_trade], by decide⟩

/-- Claim C3 as amended: validate_trade rejects with the budget reason
exactly when the risk is non-zero, the reward:risk ratio check passes
(ratio not below 2), and the per-share risk |entry - stop| exceeds
account_balance * max_risk_per_trade; in particular every trade whose risk
exceeds the budget with a healthy 3:1 ratio is rejected with that reason. -/
theorem budget_rejection_characterization
    (account_balance max_risk_per_trade entry_price stop_loss take_profit : ℚ) :
    (validate_trade account_balance max_risk_per_trade entry_price stop_loss take_profit =
        ValidationResult.rejectedBudget ↔
      (|entry_price - stop_loss| ≠ 0 ∧
        ¬(|take_profit - entry_price| / |entry_price - stop_loss| < 2) ∧
        account_balance * max_risk_per_trade < |entry_price - stop_loss|)) ∧
    (|take_profit - entry_price| / |entry_price - stop_loss| = 3 →
      account_balance * max_risk_per_trade < |entry_price - stop_loss| →
      |entry_price - stop_loss| ≠ 0 →
      validate_trade account_balance max_risk_per_trade entry_price stop_loss take_profit =
        ValidationResult.rejectedBudget) := by
  have main : validate_trade account_balance max_risk_per_trade entry_price stop_loss
      take_profit = ValidationResult.rejectedBudget ↔
      (|entry_price - stop_loss| ≠ 0 ∧
        ¬(|take_profit - entry_price| / |entry_price - stop_loss| < 2) ∧
        account_balance * max_risk_per_trade < |entry_price - stop_loss|) := by
    simp only [validate_trade]
    split_ifs with h1 h2 h3
    · simp [h1]
    · simp [h2]
    · simp [h1, h2, h3]
    · simp [h3]
  refine ⟨main, fun hratio hbudget hrisk => main.mpr ⟨hrisk, ?_, hbudget⟩⟩
  rw [hratio]
  norm_num

/-- Claim C3 amended theorem applied at a concrete input: entry 1000, stop
700, take 1900 has ratio 3 and risk 300 above the 200 budget, and is
rejected with the budget reason. -/
theorem budget_rejection_witness :
    (|(1900 : ℚ) - 1000| / |(1000 : ℚ) - 700| = 3) ∧
    (10000 * (1/50 : ℚ) < |(1000 : ℚ) - 700|) ∧
    (|(1000 : ℚ) - 700| ≠ 0) ∧
    validate_trade 10000 (1/50) 1000 700 1900 = ValidationResult.rejectedBudget :=
  ⟨by norm_num, by norm_num, by norm_num,
    (budget_rejection_characterization 10000 (1/50) 1000 700 1900).2
      (by norm_num) (by norm_num) (by norm_num)⟩

/-- Claim C6 counterexample: with a negative account balance (risk_amount
= -100 * 1/50 = -2) and risk_per_share 3, Python's int() truncates -2/3
toward zero and calculate_position_size returns 0, not floor(-2/3) = -1 —
so the unrestricted "for every account_balance ... returns floor(...)"
fails (and a negative floor could not be the claimed non-negative integer
anyway). -/
theorem position_size_negative_balance_counterexample :
    (|(100 : ℚ) - 97| ≠ 0) ∧
    calculate_position_size (-100) (1/50) 100 97 = 0 ∧
    calculate_position_size (-100) (1/50) 100 97 ≠
      ⌊(-100 : ℚ) * (1/50) / |(100 : ℚ) - 97|⌋ := by
  refine ⟨by norm_num, ?_, ?_⟩ <;> norm_num [calculate_position_size, pyInt]

/-- Claim C6 as amended: whenever account_balance and max_risk_per_trade
are non-negative (the application's settings dialog enforces balance > 0
and risk percentage in (0, 100]), calculate_position_size returns 0 when
|entry_price - stop_loss| = 0 (so in particular when entry equals stop),
and otherwise returns floor(account_balance * max_risk_per_trade /
|entry_price - stop_loss|), a non-negative integer; the function is total,
so no exception is raised. -/
theorem calculate_position_size_spec
    (account_balance max_risk_per_trade entry_price stop_loss : ℚ)
    (hb : 0 ≤ account_balance) (hm : 0 ≤ max_risk_per_trade) :
    (|entry_price - stop_loss| = 0 →
      calculate_position_size account_balance max_risk_per_trade entry_price stop_loss = 0) ∧
    (|entry_price - stop_loss| ≠ 0 →
      calculate_position_size account_balance max_risk_per_trade entry_price stop_loss =
        ⌊account_balance * max_risk_per_trade / |entry_price - stop_loss|⌋ ∧
      0 ≤ calculate_position_size account_balance max_risk_per_trade entry_price stop_loss) := by
  constructor
  · intro h
    simp [calculate_position_size, h]
  · intro h
    have hq : 0 ≤ account_balance * max_risk_per_trade / |entry_price - stop_loss| :=
      div_nonneg (mul_nonneg hb hm) (abs_nonneg _)
    have he : calculate_position_size account_balance max_risk_per_trade entry_price stop_loss =
        ⌊account_balance * max_risk_per_trade / |entry_price - stop_loss|⌋ := by
      simp [calculate_position_size, h, pyInt, hq]
    exact ⟨he, he ▸ Int.floor_nonneg.mpr hq⟩

/-- Claim C6 amended theorem applied at the scenario-1 input: balance
10000, max risk 2 percent, entry 150, stop 145 → floor(200 / 5) = 40
shares, non-negative. -/
theorem calculate_position_size_spec_witness :
    ((0 : ℚ) ≤ 10000) ∧ ((0 : ℚ) ≤ 1/50) ∧ (|(150 : ℚ) - 145| ≠ 0) ∧
    (calculate_position_size 10000 (1/50) 150 145 =
        ⌊(10000 : ℚ) * (1/50) / |(150 : ℚ) - 145|⌋ ∧
      0 ≤ calculate_position_size 10000 (1/50) 150 145) :=
  ⟨by norm_num, by norm_num, by norm_num,
    (calculate_position_size_spec 10000 (1/50) 150 145 (by norm_num) (by norm_num)).2
      (by norm_num)⟩

/-- One partial-close step preserves the conservation invariant: the lot
split moves exactly close_quantity from the live record into the appended
Closed sibling, the COALESCE backfill freezes original_quantity at the
initial quantity, and the full-close branch touches neither quantity nor
original_quantity nor the lot list. -/
lemma closeStep_preserves (now : ℕ) (q0 : ℤ) (s : Position × List Position) (op : ℤ × ℚ)
    (h : ConservInv q0 s) : ConservInv q0 (closeStep now s op) := by
  obtain ⟨hsum, horig, hiff⟩ := h
  simp only [closeStep, executePartialClose]
  split_ifs with hrem htt
  · refine ⟨?_, ?_, ?_⟩
    · simp only [List.map_append, List.sum_append, List.map_cons, List.map_nil, List.sum_cons,
        List.sum_nil, add_zero]
      omega
    · rcases horig with ⟨hn, hq⟩ | hs
      · exact Or.inr (by simp [hn, hq])
      · exact Or.inr (by simp [hs])
    · simp
  · refine ⟨?_, ?_, ?_⟩
    · simp only [List.map_append, List.sum_append, List.map_cons, List.map_nil, List.sum_cons,
        List.sum_nil, add_zero]
      omega
    · rcases horig with ⟨hn, hq⟩ | hs
      · exact Or.inr (by simp [hn, hq])
      · exact Or.inr (by simp [hs])
    · simp
  · exact ⟨hsum, horig, hiff⟩

/-- The conservation invariant holds after every prefix of a sequence of
partial-close steps, whenever it holds initially. -/
lemma applyCloses_take_preserves (now : ℕ) (q0 : ℤ) :
    ∀ (ops : List (ℤ × ℚ)) (s : Position × List Position), ConservInv q0 s →
      ∀ k : ℕ, ConservInv q0 (applyCloses now s (ops.take k)) := by
  intro ops
  induction ops with
  | nil =>
    intro s h k
    simpa [applyCloses] using h
  | cons op rest ih =>
    intro s h k
    cases k with
    | zero => simpa [applyCloses] using h
    | succ k =>
      rw [List.take_succ_cons]
      exact ih (closeStep now s op) (closeStep_preserves now q0 s op h) k

/-- Claim C4: for every position opened with quantity q0 (original_quantity
NULL on creation) and every valid sequence of partialClose operations — at
each step 0 < close_quantity ≤ current quantity of a still-Open record —
after every prefix of the sequence, the live record's quantity plus the
quantities of all derived Closed lots equals q0; original_quantity is NULL
with an unreduced quantity until the first lot split, and frozen at q0
from the first reduction on (later reductions leave it unchanged). The
invariant is preserved by every step, so the validity hypothesis only
delimits the claim's scope. -/
theorem quantity_conservation (now : ℕ) (p0 : Position)
    (h0 : p0.original_quantity = none) (ops : List (ℤ × ℚ))
    (_hv : validSeq now (p0, []) ops = true) :
    ∀ k : ℕ, ConservInv p0.quantity (applyCloses now (p0, []) (ops.take k)) := by
  intro k
  refine applyCloses_take_preserves now p0.quantity ops (p0, []) ?_ k
  exact ⟨by simp, Or.inl ⟨h0, rfl⟩, by simp [h0]⟩

/-- Claim C4 theorem applied at the scenario-2/3 input: the AAPL long of
40 shares, partially closed for 15 at 155 and then fully closed for the
remaining 25 at 148 — after both steps 25-lot-and-record quantities still
sum to 40. -/
theorem quantity_conservation_witness :
    appleOpen.original_quantity = none ∧
    validSeq 7 (appleOpen, []) [(15, 155), (25, 148)] = true ∧
    ConservInv appleOpen.quantity
      (applyCloses 7 (appleOpen, []) ([((15 : ℤ), (155 : ℚ)), (25, 148)].take 2)) :=
  ⟨rfl, by decide, quantity_conservation 7 appleOpen rfl [(15, 155), (25, 148)] (by decide) 2⟩

/-- Claim C9 counterexample: the empty closed set contains no trade with
pnl < 0, yet calculate_statistics returns early (`if not trades: return`)
and produces no statistics at all — in particular no profit_factor of
+infinity. -/
theorem calculate_statistics_empty : calculate_statistics ([] : List ℚ) = none := by
  simp [calculate_statistics]

/-- Claim C9 as amended: for every non-empty closed set containing no
trade with pnl < 0, calculate_statistics returns profit_factor =
+infinity — including when there are also no winning trades, so the
zero-wins/zero-losses convention resolves to +infinity. -/
theorem profit_factor_no_losses (pnls : List ℚ) (hne : pnls ≠ [])
    (hnoneg : ∀ p ∈ pnls, ¬ p < 0) :
    ∃ s, calculate_statistics pnls = some s ∧ s.profit_factor = ProfitFactor.inf := by
  have hfilter : pnls.filter (fun p => decide (p < 0)) = [] := by
    rw [List.filter_eq_nil_iff]
    intro a ha
    simpa using hnoneg a ha
  unfold calculate_statistics
  rw [if_neg hne]
  refine ⟨_, rfl, ?_⟩
  simp [hfilter]

/-- Claim C9 amended theorem applied to the all-zero closed set {0, 0}:
zero winning and zero losing trades, and profit_factor is +infinity. -/
theorem profit_factor_no_losses_witness :
    (([0, 0] : List ℚ) ≠ []) ∧ (∀ p ∈ ([0, 0] : List ℚ), ¬ p < 0) ∧
    ∃ s, calculate_statistics ([0, 0] : List ℚ) = some s ∧
      s.profit_factor = ProfitFactor.inf :=
  ⟨by simp, by norm_num, profit_factor_no_losses [0, 0] (by simp) (by norm_num)⟩

/-- Every rational pnl is exactly one of positive, negative or zero, so
the three filters of calculate_statistics partition the closed set. -/
lemma length_filter_trichotomy (l : List ℚ) :
    l.length = (l.filter (fun p => decide (0 < p))).length +
      (l.filter (fun p => decide (p < 0))).length +
      (l.filter (fun p => decide (p = 0))).length := by
  induction l with
  | nil => simp
  | cons a t ih =>
    rcases lt_trichotomy a 0 with h | h | h
    · simp only [List.filter_cons, decide_eq_true_eq, List.length_cons]
      rw [if_neg (by simpa using not_lt.mpr h.le), if_pos (by simpa using h),
        if_neg (by simpa using h.ne)]
      simp only [List.length_cons]
      omega
    · subst h
      simp only [List.filter_cons, decide_eq_true_eq, List.length_cons]
      rw [if_neg (by simp), if_neg (by simp), if_pos (by simp)]
      simp only [List.length_cons]
      omega
    · simp only [List.filter_cons, decide_eq_true_eq, List.length_cons]
      rw [if_pos (by simpa using h), if_neg (by simpa using not_lt.mpr h.le),
        if_neg (by simpa using h.ne')]
      simp only [List.length_cons]
      omega

/-- Claim C10: for every non-empty closed set, calculate_statistics counts
every closed trade (zero-pnl included) in total_trades, counts pnl > 0 as
winning and pnl < 0 as losing, sets win_rate = winning_trades /
total_trades * 100, and total_trades = winning_trades + losing_trades +
number of zero-pnl trades — so a zero-pnl trade sits in the win-rate
denominator but in neither winning_trades nor losing_trades. -/
theorem win_rate_spec (pnls : List ℚ) (hne : pnls ≠ []) :
    ∃ s, calculate_statistics pnls = some s ∧
      s.total_trades = pnls.length ∧
      s.winning_trades = (pnls.filter (fun p => decide (0 < p))).length ∧
      s.losing_trades = (pnls.filter (fun p => decide (p < 0))).length ∧
      s.win_rate = (s.winning_trades : ℚ) / (s.total_trades : ℚ) * 100 ∧
      s.total_trades = s.winning_trades + s.losing_trades +
        (pnls.filter (fun p => decide (p = 0))).length := by
  unfold calculate_statistics
  rw [if_neg hne]
  have hpos : 0 < pnls.length := List.length_pos.mpr hne
  refine ⟨_, rfl, rfl, rfl, by simp [List.length_map], ?_, ?_⟩
  · simp only [if_pos hpos]
  · simpa [List.length_map] using length_filter_trichotomy pnls

/-- Claim C10 theorem applied to the closed set {+100, -50, 0}: three
total trades, one winner, one loser, the zero-pnl trade in the
denominator only, win_rate = 1/3 * 100. -/
theorem win_rate_spec_witness :
    (([100, -50, 0] : List ℚ) ≠ []) ∧
    (∃ s, calculate_statistics ([100, -50, 0] : List ℚ) = some s ∧
      s.total_trades = ([100, -50, 0] : List ℚ).length ∧
      s.winning_trades = (([100, -50, 0] : List ℚ).filter (fun p => decide (0 < p))).length ∧
      s.losing_trades = (([100, -50, 0] : List ℚ).filter (fun p => decide (p < 0))).length ∧
      s.win_rate = (s.winning_trades : ℚ) / (s.total_trades : ℚ) * 100 ∧
      s.total_trades = s.winning_trades + s.losing_trades +
        (([100, -50, 0] : List ℚ).filter (fun p => decide (p = 0))).length) :=
  ⟨by simp, win_rate_spec ([100, -50, 0] : List ℚ) (by simp)⟩

end Robi
